import Mathlib

/-!
Shallow embedding of the SimVerse water-pollution-control simulator core
(`src/app.py`): the session state, the transition engine
`run_simulation_step`, the campaign gating (`day >= 30`), the reset
command and the final report grading.  All Python float arithmetic is
modelled with exact rational arithmetic over `ℚ`.
-/

namespace SimVerse

/-- The three policy toggles kept in `st.session_state.policies`
(app.py lines 56-60). -/
structure Policies where
  treatmentPlant : Bool
  regulation : Bool
  cleanupDrive : Bool
  deriving DecidableEq, Repr

/-- One per-day snapshot appended to `st.session_state.history`
(app.py lines 50-55 and 114-117). -/
structure HistEntry where
  day : Nat
  pollution : ℚ
  oxygen : ℚ
  health : ℚ
  deriving DecidableEq, Repr

/-- The session-state fields that the simulation core reads and writes
(app.py lines 45-60). -/
structure SimState where
  day : Nat
  pollution_level : ℚ
  dissolved_oxygen : ℚ
  aquatic_health : ℚ
  history : List HistEntry
  policies : Policies
  deriving DecidableEq, Repr

/-- Rational version of `np.clip x lo hi` (app.py line 110). -/
def clip (x lo hi : ℚ) : ℚ := min hi (max lo x)

/-- Target dissolved oxygen for a given pollution level:
`max(0.5, 8.0 - pollution_level * 0.15)` (app.py line 87). -/
def target_do (pollution : ℚ) : ℚ := max 0.5 (8.0 - pollution * 0.15)

/-- The transition engine `run_simulation_step` (app.py lines 64-117),
reading the policy toggles from the state exactly as the Python code
reads `st.session_state.policies`. -/
def run_simulation_step (factory_input farm_input : ℕ) (s : SimState) : SimState :=
  let daily_pollution0 : ℚ := (factory_input : ℚ) * 1.5 + (farm_input : ℚ) * 1.0
  let natural_recovery : ℚ := 2.0
  let daily_pollution1 : ℚ :=
    if s.policies.treatmentPlant then daily_pollution0 * 0.3 else daily_pollution0
  let daily_pollution : ℚ :=
    if s.policies.regulation then daily_pollution1 * 0.6 else daily_pollution1
  let decay_booster : ℚ := if s.policies.cleanupDrive then 2.5 else 1.0
  let net_pollution : ℚ := daily_pollution - natural_recovery * decay_booster
  let pollution_level : ℚ := max 0 (s.pollution_level + net_pollution)
  let dissolved_oxygen : ℚ :=
    s.dissolved_oxygen + (target_do pollution_level - s.dissolved_oxygen) * 0.4
  let health_impact0 : ℚ := 0
  let health_impact1 : ℚ :=
    if dissolved_oxygen < 6.0 then health_impact0 - (6.0 - dissolved_oxygen) * 2.5
    else health_impact0
  let health_impact2 : ℚ :=
    if pollution_level > 20 then health_impact1 - (pollution_level - 20) * 0.5
    else health_impact1
  let health_impact : ℚ :=
    if dissolved_oxygen > 6.0 ∧ pollution_level < 20 then
      health_impact2 + (3.0 + if s.policies.cleanupDrive then 5.0 else 0)
    else health_impact2
  let aquatic_health : ℚ := clip (s.aquatic_health + health_impact) 0 100
  { day := s.day + 1
    pollution_level := pollution_level
    dissolved_oxygen := dissolved_oxygen
    aquatic_health := aquatic_health
    history := s.history ++ [⟨s.day + 1, pollution_level, dissolved_oxygen, aquatic_health⟩]
    policies := s.policies }

/-- The terminal-condition flag `game_over = st.session_state.day >= 30`
(app.py line 137). -/
def game_over (s : SimState) : Bool := 30 ≤ s.day

/-- One `advance` (Next Day) command.  The sidebar first writes the policy
checkbox snapshot into the session state (app.py lines 130-132); the
Next Day button then runs the engine, but the button only exists while
`not game_over` (app.py lines 137-144), so past day 30 the command is a
no-op. -/
def advance (factory_input farm_input : ℕ) (pol : Policies) (s : SimState) : SimState :=
  if game_over s then s
  else run_simulation_step factory_input farm_input { s with policies := pol }

/-- The session-state seed written by the initializer (app.py lines 45-60). -/
def seedState : SimState :=
  { day := 1
    pollution_level := 10.0
    dissolved_oxygen := 8.0
    aquatic_health := 100.0
    history := [⟨1, 10.0, 8.0, 100.0⟩]
    policies := ⟨false, false, false⟩ }

/-- The Reset Simulation button deletes every session key, so the next
rerun re-executes the initializer and restores the seed state
(app.py lines 45-61 and 146-149). -/
def reset (_ : SimState) : SimState := seedState

/-- The per-day command payload: the two slider values and the policy
snapshot read before the advance (app.py lines 123, 126, 130-132). -/
structure DayInput where
  factory : ℕ
  farm : ℕ
  pol : Policies
  deriving DecidableEq, Repr

/-- Run a sequence of advance commands from a state. -/
def runSim (inputs : List DayInput) (s : SimState) : SimState :=
  inputs.foldl (fun st i => advance i.factory i.farm i.pol st) s

/-- The grading thresholds of the final report (app.py lines 187-202). -/
def grade (avg final_pollution : ℚ) : String :=
  if avg > 90 ∧ final_pollution < 5 then "A+"
  else if avg > 70 then "B"
  else if avg > 40 then "C"
  else "F"

/-- The average of all recorded health history values, as
`np.mean(st.session_state.history['Health'])` (app.py line 183). -/
def avg_health (s : SimState) : ℚ :=
  (s.history.map HistEntry.health).sum / (s.history.length : ℚ)

/-- The final report grade: `grade` applied to the history health mean and
the current pollution level (app.py lines 183-202). -/
def report (s : SimState) : String := grade (avg_health s) s.pollution_level

/-- Transcription of the spec §4.1 advance algorithm, written from the
spec's own words (steps 1-10) so that it can be compared with the
engine `run_simulation_step` embedded from the code. -/
def specAdvance (factoryInput farmInput : ℕ) (pol : Policies) (s : SimState) : SimState :=
  let dailyPollution0 : ℚ := (factoryInput : ℚ) * 1.5 + (farmInput : ℚ) * 1.0
  let dailyPollution1 : ℚ :=
    if pol.treatmentPlant then dailyPollution0 * 0.3 else dailyPollution0
  let dailyPollution : ℚ :=
    if pol.regulation then dailyPollution1 * 0.6 else dailyPollution1
  let decayBooster : ℚ := if pol.cleanupDrive then 2.5 else 1.0
  let netPollution : ℚ := dailyPollution - 2.0 * decayBooster
  let pollutionLevel : ℚ := max 0 (s.pollution_level + netPollution)
  let targetDO : ℚ := max 0.5 (8.0 - pollutionLevel * 0.15)
  let dissolvedOxygen : ℚ := s.dissolved_oxygen + (targetDO - s.dissolved_oxygen) * 0.4
  let penaltyDO : ℚ :=
    if dissolvedOxygen < 6.0 then -((6.0 - dissolvedOxygen) * 2.5) else 0
  let penaltyPollution : ℚ :=
    if pollutionLevel > 20 then -((pollutionLevel - 20) * 0.5) else 0
  let recovery : ℚ :=
    if dissolvedOxygen > 6.0 ∧ pollutionLevel < 20 then
      3.0 + (if pol.cleanupDrive then 5.0 else 0)
    else 0
  let healthImpact : ℚ := penaltyDO + penaltyPollution + recovery
  let aquaticHealth : ℚ := clip (s.aquatic_health + healthImpact) 0 100
  { day := s.day + 1
    pollution_level := pollutionLevel
    dissolved_oxygen := dissolvedOxygen
    aquatic_health := aquaticHealth
    history := s.history ++ [⟨s.day + 1, pollutionLevel, dissolvedOxygen, aquaticHealth⟩]
    policies := pol }

/-! Helper lemmas about single steps and runs. -/

theorem target_do_ge_half (p : ℚ) : (0.5 : ℚ) ≤ target_do p := le_max_left _ _

theorem run_step_pollution_nonneg (f fa : ℕ) (s : SimState) :
    0 ≤ (run_simulation_step f fa s).pollution_level :=
  le_max_left 0 _

theorem run_step_health_mem (f fa : ℕ) (s : SimState) :
    0 ≤ (run_simulation_step f fa s).aquatic_health ∧
      (run_simulation_step f fa s).aquatic_health ≤ 100 :=
  ⟨le_min (by norm_num) (le_max_left 0 _), min_le_left _ _⟩

theorem run_step_do_eq (f fa : ℕ) (s : SimState) :
    (run_simulation_step f fa s).dissolved_oxygen =
      s.dissolved_oxygen +
        (target_do ((run_simulation_step f fa s).pollution_level) - s.dissolved_oxygen) * 0.4 :=
  rfl

theorem run_step_do_ge (f fa : ℕ) (s : SimState) (h : (0.5 : ℚ) ≤ s.dissolved_oxygen) :
    (0.5 : ℚ) ≤ (run_simulation_step f fa s).dissolved_oxygen := by
  rw [run_step_do_eq]
  have ht := target_do_ge_half ((run_simulation_step f fa s).pollution_level)
  nlinarith [ht, h]

theorem run_step_day (f fa : ℕ) (s : SimState) :
    (run_simulation_step f fa s).day = s.day + 1 := rfl

theorem run_step_history_len (f fa : ℕ) (s : SimState) :
    (run_simulation_step f fa s).history.length = s.history.length + 1 := by
  show (s.history ++ [_]).length = s.history.length + 1
  simp

theorem advance_pollution_nonneg (f fa : ℕ) (pol : Policies) (s : SimState)
    (h : 0 ≤ s.pollution_level) : 0 ≤ (advance f fa pol s).pollution_level := by
  rw [advance]
  split
  · exact h
  · exact run_step_pollution_nonneg f fa _

theorem advance_health_mem (f fa : ℕ) (pol : Policies) (s : SimState)
    (h : 0 ≤ s.aquatic_health ∧ s.aquatic_health ≤ 100) :
    0 ≤ (advance f fa pol s).aquatic_health ∧ (advance f fa pol s).aquatic_health ≤ 100 := by
  rw [advance]
  split
  · exact h
  · exact run_step_health_mem f fa _

theorem advance_do_ge (f fa : ℕ) (pol : Policies) (s : SimState)
    (h : (0.5 : ℚ) ≤ s.dissolved_oxygen) :
    (0.5 : ℚ) ≤ (advance f fa pol s).dissolved_oxygen := by
  rw [advance]
  split
  · exact h
  · exact run_step_do_ge f fa _ h

theorem advance_hist_day (f fa : ℕ) (pol : Policies) (s : SimState)
    (h : s.history.length = s.day) :
    (advance f fa pol s).history.length = (advance f fa pol s).day := by
  rw [advance]
  split
  · exact h
  · rw [run_step_history_len, run_step_day]
    show s.history.length + 1 = s.day + 1
    omega

theorem runSim_cons (i : DayInput) (inputs : List DayInput) (s : SimState) :
    runSim (i :: inputs) s = runSim inputs (advance i.factory i.farm i.pol s) := rfl

theorem runSim_pollution_nonneg (inputs : List DayInput) (s : SimState)
    (h : 0 ≤ s.pollution_level) : 0 ≤ (runSim inputs s).pollution_level := by
  induction inputs generalizing s with
  | nil => exact h
  | cons i rest ih => exact ih _ (advance_pollution_nonneg _ _ _ _ h)

theorem runSim_health_mem (inputs : List DayInput) (s : SimState)
    (h : 0 ≤ s.aquatic_health ∧ s.aquatic_health ≤ 100) :
    0 ≤ (runSim inputs s).aquatic_health ∧ (runSim inputs s).aquatic_health ≤ 100 := by
  induction inputs generalizing s with
  | nil => exact h
  | cons i rest ih => exact ih _ (advance_health_mem _ _ _ _ h)

theorem runSim_do_ge (inputs : List DayInput) (s : SimState)
    (h : (0.5 : ℚ) ≤ s.dissolved_oxygen) :
    (0.5 : ℚ) ≤ (runSim inputs s).dissolved_oxygen := by
  induction inputs generalizing s with
  | nil => exact h
  | cons i rest ih => exact ih _ (advance_do_ge _ _ _ _ h)

theorem runSim_hist_day (inputs : List DayInput) (s : SimState)
    (h : s.history.length = s.day) :
    (runSim inputs s).history.length = (runSim inputs s).day := by
  induction inputs generalizing s with
  | nil => exact h
  | cons i rest ih => exact ih _ (advance_hist_day _ _ _ _ h)

theorem seed_pollution_nonneg : 0 ≤ seedState.pollution_level := by
  norm_num [seedState]

theorem seed_health_mem : 0 ≤ seedState.aquatic_health ∧ seedState.aquatic_health ≤ 100 := by
  norm_num [seedState]

theorem seed_do_ge : (0.5 : ℚ) ≤ seedState.dissolved_oxygen := by
  norm_num [seedState]

theorem seed_hist_day : seedState.history.length = seedState.day := rfl

/-! Claim theorems. -/

/-- C2 counterexample: the claimed sequence does not exist.  No sequence of
advance calls with valid slider inputs from the seed state can drive
`dissolved_oxygen` strictly below 0.5: the 0.5 floor on `target_do`
propagates through the convex smoothing update. -/
theorem C2_counterexample :
    ¬ ∃ inputs : List DayInput,
        (∀ i ∈ inputs, i.factory ≤ 10 ∧ i.farm ≤ 10) ∧
        (runSim inputs seedState).dissolved_oxygen < 0.5 := by
  rintro ⟨inputs, -, hlt⟩
  have h := runSim_do_ge inputs seedState seed_do_ge
  linarith

/-- C2 (amended): for every sequence of advance calls with valid inputs from
the seed state, `dissolved_oxygen` stays at or above 0.5: the 0.5 floor on
`target_do` also bounds the exponentially smoothed value, since the seed
oxygen 8.0 is above 0.5 and each update is a convex combination of the
previous value and the floored target. -/
theorem C2_do_never_below_half (inputs : List DayInput)
    (h : ∀ i ∈ inputs, i.factory ≤ 10 ∧ i.farm ≤ 10) :
    (0.5 : ℚ) ≤ (runSim inputs seedState).dissolved_oxygen :=
  runSim_do_ge inputs seedState seed_do_ge

theorem C2_do_never_below_half_witness :
    (∀ i ∈ [(⟨10, 10, ⟨false, false, false⟩⟩ : DayInput)], i.factory ≤ 10 ∧ i.farm ≤ 10) ∧
      (0.5 : ℚ) ≤
        (runSim [(⟨10, 10, ⟨false, false, false⟩⟩ : DayInput)] seedState).dissolved_oxygen :=
  ⟨by decide, C2_do_never_below_half [⟨10, 10, ⟨false, false, false⟩⟩] (by decide)⟩

/-- C3: after every sequence of advance calls with valid inputs from the
seed state, `aquatic_health` lies in [0, 100] (it is clipped to [0, 100]
at every update, and every intermediate state is the result of a prefix of
the input sequence). -/
theorem C3_health_in_range (inputs : List DayInput)
    (h : ∀ i ∈ inputs, i.factory ≤ 10 ∧ i.farm ≤ 10) :
    0 ≤ (runSim inputs seedState).aquatic_health ∧
      (runSim inputs seedState).aquatic_health ≤ 100 :=
  runSim_health_mem inputs seedState seed_health_mem

theorem C3_health_in_range_witness :
    (∀ i ∈ [(⟨10, 10, ⟨false, false, false⟩⟩ : DayInput)], i.factory ≤ 10 ∧ i.farm ≤ 10) ∧
      (0 ≤ (runSim [(⟨10, 10, ⟨false, false, false⟩⟩ : DayInput)] seedState).aquatic_health ∧
        (runSim [(⟨10, 10, ⟨false, false, false⟩⟩ : DayInput)] seedState).aquatic_health ≤ 100) :=
  ⟨by decide, C3_health_in_range [⟨10, 10, ⟨false, false, false⟩⟩] (by decide)⟩

/-- C4: after every sequence of advance calls with valid inputs from the
seed state, `pollution_level` is never negative (it is floored at 0 by the
`max 0` on each update). -/
theorem C4_pollution_nonneg (inputs : List DayInput)
    (h : ∀ i ∈ inputs, i.factory ≤ 10 ∧ i.farm ≤ 10) :
    0 ≤ (runSim inputs seedState).pollution_level :=
  runSim_pollution_nonneg inputs seedState seed_pollution_nonneg

theorem C4_pollution_nonneg_witness :
    (∀ i ∈ [(⟨0, 0, ⟨false, false, true⟩⟩ : DayInput)], i.factory ≤ 10 ∧ i.farm ≤ 10) ∧
      0 ≤ (runSim [(⟨0, 0, ⟨false, false, true⟩⟩ : DayInput)] seedState).pollution_level :=
  ⟨by decide, C4_pollution_nonneg [⟨0, 0, ⟨false, false, true⟩⟩] (by decide)⟩

/-- C5: in every state reachable from the seed by advance calls with valid
inputs the history length equals the day counter (the day-1 seed entry
included), and every accepted advance (one issued while `day < 30`)
increases the day by exactly 1 and appends exactly one history entry. -/
theorem C5_history_tracks_day :
    (∀ inputs : List DayInput, (∀ i ∈ inputs, i.factory ≤ 10 ∧ i.farm ≤ 10) →
      (runSim inputs seedState).history.length = (runSim inputs seedState).day) ∧
    (∀ (s : SimState) (f fa : ℕ) (pol : Policies), s.day < 30 →
      (advance f fa pol s).day = s.day + 1 ∧
        (advance f fa pol s).history.length = s.history.length + 1) := by
  constructor
  · intro inputs _
    exact runSim_hist_day inputs seedState seed_hist_day
  · intro s f fa pol hday
    have hg : game_over s = false := by
      simp only [game_over, decide_eq_false_iff_not]
      omega
    rw [advance, hg]
    simp only [Bool.false_eq_true, if_false]
    exact ⟨run_step_day f fa _, run_step_history_len f fa _⟩

theorem C5_history_tracks_day_witness :
    ((∀ i ∈ ([] : List DayInput), i.factory ≤ 10 ∧ i.farm ≤ 10) ∧
      (runSim [] seedState).history.length = (runSim [] seedState).day) ∧
    (seedState.day < 30 ∧
      (advance 5 3 ⟨false, false, false⟩ seedState).day = seedState.day + 1 ∧
        (advance 5 3 ⟨false, false, false⟩ seedState).history.length =
          seedState.history.length + 1) :=
  ⟨⟨by decide, C5_history_tracks_day.1 [] (by decide)⟩,
    ⟨by decide, C5_history_tracks_day.2 seedState 5 3 ⟨false, false, false⟩ (by decide)⟩⟩

/-- C6: once `day >= 30` the advance command is a no-op: any further
sequence of advance commands leaves every field of the state (day,
pollution, oxygen, health, history, policies) unchanged. -/
theorem C6_advance_rejected (s : SimState) (h : 30 ≤ s.day) (inputs : List DayInput) :
    runSim inputs s = s := by
  have hadv : ∀ (f fa : ℕ) (pol : Policies), advance f fa pol s = s := by
    intro f fa pol
    rw [advance, if_pos]
    simp only [game_over, decide_eq_true_eq]
    exact h
  induction inputs with
  | nil => rfl
  | cons i rest ih => rw [runSim_cons, hadv]; exact ih

theorem C6_advance_rejected_witness :
    30 ≤ ({ seedState with day := 30 } : SimState).day ∧
      runSim [⟨10, 10, ⟨true, true, true⟩⟩] ({ seedState with day := 30 } : SimState) =
        { seedState with day := 30 } :=
  ⟨by decide, C6_advance_rejected { seedState with day := 30 } (by decide)
    [⟨10, 10, ⟨true, true, true⟩⟩]⟩

/-- C8: the reset command restores the exact seed state — day 1, pollution
10.0, oxygen 8.0, health 100.0, the single day-1 history entry and all
three policies off — regardless of the prior state. -/
theorem C8_reset_restores_seed (s : SimState) :
    reset s =
      { day := 1, pollution_level := 10, dissolved_oxygen := 8, aquatic_health := 100,
        history := [⟨1, 10, 8, 100⟩], policies := ⟨false, false, false⟩ } := by
  norm_num [reset, seedState, SimState.mk.injEq, HistEntry.mk.injEq]

/-- C9: from the seed state, one advance with factory input 5, farm input 3
and all policies off yields exactly pollution 18.5, target DO 5.225,
dissolved oxygen 6.89, aquatic health 100 (103 clipped to 100 after the
+3.0 recovery) and day 2. -/
theorem C9_scenario1 :
    advance 5 3 ⟨false, false, false⟩ seedState =
      { day := 2, pollution_level := 18.5, dissolved_oxygen := 6.89, aquatic_health := 100,
        history := [⟨1, 10, 8, 100⟩, ⟨2, 18.5, 6.89, 100⟩],
        policies := ⟨false, false, false⟩ } ∧
    target_do 18.5 = 5.225 ∧ clip (100 + 3.0) 0 100 = 100 := by
  norm_num [advance, game_over, run_simulation_step, target_do, clip, seedState,
    SimState.mk.injEq, HistEntry.mk.injEq]

/-- C10: advance is deterministic — two runs from the seed state applying
equal sequences of (factory, farm, policy-snapshot) tuples produce equal
states and equal histories. -/
theorem C10_deterministic (inputs1 inputs2 : List DayInput) (h : inputs1 = inputs2) :
    runSim inputs1 seedState = runSim inputs2 seedState ∧
      (runSim inputs1 seedState).history = (runSim inputs2 seedState).history := by
  subst h
  exact ⟨rfl, rfl⟩

theorem C10_deterministic_witness :
    ([(⟨5, 3, ⟨false, false, false⟩⟩ : DayInput)] = [⟨5, 3, ⟨false, false, false⟩⟩]) ∧
      (runSim [(⟨5, 3, ⟨false, false, false⟩⟩ : DayInput)] seedState =
          runSim [⟨5, 3, ⟨false, false, false⟩⟩] seedState ∧
        (runSim [(⟨5, 3, ⟨false, false, false⟩⟩ : DayInput)] seedState).history =
          (runSim [⟨5, 3, ⟨false, false, false⟩⟩] seedState).history) :=
  ⟨rfl, C10_deterministic [⟨5, 3, ⟨false, false, false⟩⟩] [⟨5, 3, ⟨false, false, false⟩⟩] rfl⟩


theorem grade_APlus_iff (a f : ℚ) : grade a f = "A+" ↔ 90 < a ∧ f < 5 := by
  unfold grade
  split_ifs with h1 h2 h3 <;> simp [h1]

theorem grade_B_iff (a f : ℚ) : grade a f = "B" ↔ 70 < a ∧ ¬(90 < a ∧ f < 5) := by
  unfold grade
  split_ifs with h1 h2 h3
  · simp [h1.1, h1.2]
  · simp [h1, h2]
  · simp [h2]
  · simp [h2]

theorem grade_C_iff (a f : ℚ) : grade a f = "C" ↔ 40 < a ∧ a ≤ 70 := by
  unfold grade
  split_ifs with h1 h2 h3
  · have h70 : ¬ a ≤ 70 := by simp only [not_le]; linarith [h1.1]
    simp [h70]
  · have h70 : ¬ a ≤ 70 := not_le.mpr h2
    simp [h70]
  · simp [h3, not_lt.mp h2]
  · simp [h3]

theorem grade_F_iff (a f : ℚ) : grade a f = "F" ↔ a ≤ 40 := by
  unfold grade
  split_ifs with h1 h2 h3
  · have h40 : ¬ a ≤ 40 := by simp only [not_le]; linarith [h1.1]
    simp [h40]
  · have h40 : ¬ a ≤ 40 := by simp only [not_le]; linarith
    simp [h40]
  · simp [not_le.mpr h3]
  · simp [not_lt.mp h3]

/-- C7: the final grade is assigned by the first matching rule top-down with
strict comparisons — "A+" iff avgHealth > 90 and finalPollution < 5, else
"B" iff avgHealth > 70, else "C" iff avgHealth > 40, else "F"; the report
applies `grade` to the mean of all recorded history health values and the
current pollution level; avgHealth = 90.0 does not qualify for A+ while
90.01 with finalPollution < 5 does. -/
theorem C7_grade_rules :
    (∀ a f : ℚ,
      (grade a f = "A+" ↔ 90 < a ∧ f < 5) ∧
      (grade a f = "B" ↔ 70 < a ∧ ¬(90 < a ∧ f < 5)) ∧
      (grade a f = "C" ↔ 40 < a ∧ a ≤ 70) ∧
      (grade a f = "F" ↔ a ≤ 40)) ∧
    (∀ s : SimState, report s = grade (avg_health s) s.pollution_level) ∧
    grade 90 4 = "B" ∧ grade 90.01 4 = "A+" :=
  ⟨fun a f => ⟨grade_APlus_iff a f, grade_B_iff a f, grade_C_iff a f, grade_F_iff a f⟩,
    fun _ => rfl, by norm_num [grade], by norm_num [grade]⟩

theorem ite_health_chain (c1 c2 c3 : Prop) [Decidable c1] [Decidable c2] [Decidable c3]
    (x y r : ℚ) :
    (if c3 then (if c2 then (if c1 then 0 - x else 0) - y else if c1 then 0 - x else 0) + r
     else if c2 then (if c1 then 0 - x else 0) - y else if c1 then 0 - x else 0) =
      (if c1 then -x else 0) + (if c2 then -y else 0) + (if c3 then r else 0) := by
  split_ifs <;> ring

/-- C1: for every state, slider inputs in [0, 10] and policy snapshot, an
accepted advance step computes exactly the next state prescribed by the
spec §4.1 algorithm (pollution accumulation with stacking policy
multipliers, floored pollution, floored oxygen target, exponential
smoothing with factor 0.4, the three independent health-impact branches,
and the [0, 100] health clip). -/
theorem C1_advance_matches_spec (s : SimState) (f fa : ℕ) (pol : Policies)
    (hf : f ≤ 10) (hfa : fa ≤ 10) (hday : s.day < 30) :
    advance f fa pol s = specAdvance f fa pol s := by
  have hg : game_over s = false := by
    simp only [game_over, decide_eq_false_iff_not]
    omega
  rw [advance, hg]
  simp only [Bool.false_eq_true, if_false]
  simp only [run_simulation_step, specAdvance, target_do, ite_health_chain]

theorem C1_advance_matches_spec_witness :
    ((5 : ℕ) ≤ 10 ∧ (3 : ℕ) ≤ 10 ∧ seedState.day < 30) ∧
      advance 5 3 ⟨true, true, true⟩ seedState = specAdvance 5 3 ⟨true, true, true⟩ seedState :=
  ⟨⟨by decide, by decide, by decide⟩,
    C1_advance_matches_spec seedState 5 3 ⟨true, true, true⟩ (by decide) (by decide) (by decide)⟩

end SimVerse
